import Mathlib

/-
  Verification of the request-decoding and connection-handling core of the
  basic_web_server repository (src/slib/request.c, src/src/server.c,
  src/include/request.h) against its natural-language specification.

  The C code is shallowly embedded: buffers are lists of characters, the
  strtok(3) tokenizer is modelled as a pure step function threading the saved
  position explicitly, the GLib string hash table is modelled as an
  association list with replace-on-insert, and the places where the C code
  passes a NULL token to strdup (undefined behavior) are modelled by an
  explicit crash outcome.
-/

namespace ElServe

/-- C strtok(3), one call, as a pure function. Input: the remaining buffer
(the position strtok saved from the previous call, or the whole buffer on the
first call) and the delimiter set for this call. It skips leading delimiter
bytes; if nothing remains it returns none (strtok returns NULL). Otherwise the
token is the maximal run of non-delimiter bytes, and the returned rest is the
buffer after the token and its terminating delimiter byte (strtok overwrites
that byte with NUL and saves the position after it; if the token ran to the
end of the buffer the rest is empty). Models the strtok calls in
src/slib/request.c lines 99-106. -/
def strtok (s : List Char) (delims : List Char) : Option (List Char) × List Char :=
  let s2 := s.dropWhile (fun c => delims.contains c)
  if s2.isEmpty then (none, s2)
  else
    (some (s2.takeWhile (fun c => !(delims.contains c))),
     (s2.dropWhile (fun c => !(delims.contains c))).drop 1)

/-- GLib g_hash_table_insert on a table built with g_str_hash/g_str_equal:
stores the key/value pair, replacing any existing entry with an equal key
(src/slib/request.c line 109). Modelled as an association list. -/
def htab_insert (htab : List (String × String)) (k v : String) :
    List (String × String) :=
  (k, v) :: htab.filter (fun p => p.1 != k)

/-- GLib g_hash_table_lookup with g_str_equal keys: the value stored under an
exactly (case-sensitively) equal key, or none (src/slib/request.c line 65). -/
def htab_lookup (htab : List (String × String)) (k : String) : Option String :=
  (htab.find? (fun p => p.1 == k)).map (fun p => p.2)

theorem dropWhile_length_le {α : Type} (p : α → Bool) (l : List α) :
    (l.dropWhile p).length ≤ l.length := by
  induction l with
  | nil => simp
  | cons a t ih =>
    rw [List.dropWhile_cons]
    split
    · exact le_trans ih (Nat.le_succ _)
    · simp

theorem strtok_some_length {s d : List Char} {t r : List Char}
    (h : strtok s d = (some t, r)) : r.length < s.length := by
  have hlen : (s.dropWhile (fun c => d.contains c)).length ≤ s.length :=
    dropWhile_length_le _ _
  unfold strtok at h
  cases hs : s.dropWhile (fun c => d.contains c) with
  | nil =>
    rw [hs] at h
    simp at h
  | cons a t2 =>
    rw [hs] at h hlen
    simp at h
    obtain ⟨ht, hr⟩ := h
    rw [List.dropWhile_cons] at hr
    simp only [List.length_cons] at hlen
    by_cases hq : (!(decide (a ∈ d))) = true
    · rw [if_pos hq] at hr
      have h1 : (t2.dropWhile (fun c => !(decide (c ∈ d)))).length ≤ t2.length :=
        dropWhile_length_le _ _
      have h2 : r.length ≤ t2.length := by
        rw [← hr, List.length_tail]
        omega
      omega
    · rw [if_neg hq] at hr
      have h2 : r.length = t2.length := by
        rw [← hr]
        rfl
      omega

/-- Header-parsing loop of _parse_request (src/slib/request.c lines 106-110),
with an explicit fuel parameter to make the recursion structural: while
strtok(NULL, ":") and strtok(NULL, CR) both yield tokens, insert into the hash
table the key and value obtained by skipping the first byte of each token
(header_key + 1, header_val + 1). The loop exits silently the first time
either strtok call returns NULL. Every iteration consumes at least one byte of
the remaining buffer, so fuel equal to the buffer length is never exhausted
(theorem parse_headers_fuel_irrel below shows any sufficient fuel gives the
same result). -/
def parse_headers_fuel : Nat → List Char → List (String × String) →
    List (String × String)
  | 0, _, htab => htab
  | Nat.succ fuel, rest, htab =>
    match strtok rest [':'] with
    | (none, _) => htab
    | (some keyTok, r1) =>
      match strtok r1 ['\r'] with
      | (none, _) => htab
      | (some valTok, r2) =>
        parse_headers_fuel fuel r2
          (htab_insert htab (keyTok.drop 1).asString (valTok.drop 1).asString)

theorem parse_headers_fuel_irrel :
    ∀ f1 : Nat, ∀ rest : List Char, ∀ htab : List (String × String), ∀ f2 : Nat,
    rest.length ≤ f1 → rest.length ≤ f2 →
    parse_headers_fuel f1 rest htab = parse_headers_fuel f2 rest htab := by
  intro f1
  induction f1 with
  | zero =>
    intro rest htab f2 hf1 hf2
    have : rest = [] := List.length_eq_zero.mp (Nat.le_zero.mp hf1)
    subst this
    cases f2 with
    | zero => rfl
    | succ f2 => rfl
  | succ f1 ih =>
    intro rest htab f2 hf1 hf2
    cases f2 with
    | zero =>
      have : rest = [] := List.length_eq_zero.mp (Nat.le_zero.mp hf2)
      subst this
      rfl
    | succ f2 =>
      show parse_headers_fuel (f1 + 1) rest htab = parse_headers_fuel (f2 + 1) rest htab
      unfold parse_headers_fuel
      cases h1 : strtok rest [':'] with
      | mk o1 r1 =>
        cases o1 with
        | none => rfl
        | some keyTok =>
          dsimp only
          cases h2 : strtok r1 ['\r'] with
          | mk o2 r2 =>
            cases o2 with
            | none => rfl
            | some valTok =>
              dsimp only
              have a1 := strtok_some_length h1
              have a2 := strtok_some_length h2
              exact ih r2 _ f2 (by omega) (by omega)

/-- Header-parsing loop of _parse_request (src/slib/request.c lines 106-110),
run with the always-sufficient fuel. -/
def parse_headers (rest : List Char) (htab : List (String × String)) :
    List (String × String) :=
  parse_headers_fuel rest.length rest htab

/-- Result of _parse_request (src/slib/request.c lines 91-114) on a non-NULL
buffer and request. The C function returns 0 (clean failure) only when its
arguments are NULL; on a real buffer each of the first three strtok results is
passed to strdup unchecked, so a missing token means strdup(NULL): undefined
behavior, modelled as the crash outcome. -/
inductive ParseOutcome where
  | crash
  | ok (http_method url http_ver : String) (header_htab : List (String × String))
deriving DecidableEq

/-- The body of _parse_request (src/slib/request.c lines 97-113): duplicate the
buffer, take the method token up to a space, the url token up to a space, the
version token up to a carriage return, then run the header loop on what
remains. A missing token is strdup(NULL): crash. -/
def parse_request_buf (req_buf : List Char) : ParseOutcome :=
  match strtok req_buf [' '] with
  | (none, _) => ParseOutcome.crash
  | (some mTok, r1) =>
    match strtok r1 [' '] with
    | (none, _) => ParseOutcome.crash
    | (some uTok, r2) =>
      match strtok r2 ['\r'] with
      | (none, _) => ParseOutcome.crash
      | (some vTok, r3) =>
        ParseOutcome.ok mTok.asString uTok.asString vTok.asString (parse_headers r3 [])

/-- The request struct of src/include/request.h lines 12-18: connection file
descriptor, HTTP method, url, HTTP version, and the header hash table. -/
structure RequestData where
  conn_fd : Int
  http_method : String
  url : String
  http_ver : String
  header_htab : List (String × String)
deriving DecidableEq

/-- Result of parse_request (src/slib/request.c lines 40-50): either the
populated request bound to conn_fd, or the undefined-behavior outcome from
_parse_request. Allocation failure of _initialize_request is not modelled
(malloc is assumed to succeed). -/
inductive ParseReqResult where
  | crash
  | ok (r : RequestData)
deriving DecidableEq

/-- parse_request (src/slib/request.c lines 40-50): initialize a request, set
its conn_fd, run _parse_request on the buffer. -/
def parse_request (req_buf : List Char) (conn_fd : Int) : ParseReqResult :=
  match parse_request_buf req_buf with
  | ParseOutcome.crash => ParseReqResult.crash
  | ParseOutcome.ok m u v h => ParseReqResult.ok ⟨conn_fd, m, u, v, h⟩

/-- REQ_BUF_SIZE (src/include/request.h line 5): the fixed receive capacity. -/
def REQ_BUF_SIZE : Nat := 8192

/-- Result of get_request (src/slib/request.c lines 32-38): NULL when recv
fails, otherwise whatever parse_request produces. -/
inductive GetReqResult where
  | nullReq
  | crash
  | ok (r : RequestData)
deriving DecidableEq

/-- get_request (src/slib/request.c lines 32-38): recv at most REQ_BUF_SIZE
bytes from the connection (the offered byte stream truncated to the
capacity), return NULL on receive error, otherwise parse. recvRet is none
when recv reports an error, some stream when it delivers bytes. -/
def get_request (recvRet : Option (List Char)) (conn_fd : Int) : GetReqResult :=
  match recvRet with
  | none => GetReqResult.nullReq
  | some stream =>
    match parse_request (stream.take REQ_BUF_SIZE) conn_fd with
    | ParseReqResult.crash => GetReqResult.crash
    | ParseReqResult.ok r => GetReqResult.ok r

/-- get_request_header (src/slib/request.c lines 60-72). Arguments: the
request pointer (none models NULL), the header key pointer (none models NULL),
and the caller-supplied output buffer (none models NULL, some its current
contents). Returns the pair (returned pointer, buffer contents after the
call): NULL request or key gives NULL with the buffer untouched; a found value
is returned and, when a buffer was supplied, strcpy-ed into it; a missing key
gives NULL with the buffer untouched. -/
def get_request_header (req : Option RequestData) (header_key : Option String)
    (header_val : Option String) : Option String × Option String :=
  match req, header_key with
  | some r, some k =>
    match htab_lookup r.header_htab k with
    | some v =>
      match header_val with
      | some _ => (some v, some v)
      | none => (some v, none)
    | none => (none, header_val)
  | _, _ => (none, header_val)

/-- Observable resource and transmission events of one Connection Worker run
(src/src/server.c handle_request / clean_request). Counters count release
events so exactly-once release and no-double-release are statable; openPath
records the path handed to fopen; sendAttempts counts transmissions attempted
on the connection (header block, body). -/
structure WorkerTrace where
  requestMade : Bool
  fileOpened : Bool
  responseMade : Bool
  openPath : Option String
  sendAttempts : Nat
  sendFileErrorLogged : Bool
  fileClosed : Nat
  requestClosed : Nat
  connClosed : Nat
  responseClosed : Nat
deriving DecidableEq

/-- Trace at worker start: nothing constructed, nothing released, no bytes
sent. -/
def emptyTrace : WorkerTrace :=
  ⟨false, false, false, none, 0, false, 0, 0, 0, 0⟩

/-- close_request (src/slib/request.c lines 52-58): close the connection file
descriptor when it is not -1, then _free_request, which frees the header hash
table and the three string fields and the request itself. -/
def close_request (conn_fd : Int) (t : WorkerTrace) : WorkerTrace :=
  let t1 := if conn_fd = -1 then t else { t with connClosed := t.connClosed + 1 }
  { t1 with requestClosed := t1.requestClosed + 1 }

/-- Modelled from the spec: close_response. The Response Encoder source
(response.c) is not among the sources, only its caller is; per the spec
(section 4.3) destruction releases the response, its header block and any
still-owned body resource, as one release of the Response component. -/
def close_response (t : WorkerTrace) : WorkerTrace :=
  { t with responseClosed := t.responseClosed + 1 }

/-- clean_request (src/src/server.c lines 149-153): fclose the file when
non-NULL, close_request the request when non-NULL (req carries its conn_fd
when present), close_response the response when non-NULL. -/
def clean_request (file : Bool) (req : Option Int) (res : Bool)
    (t : WorkerTrace) : WorkerTrace :=
  let t1 := if file then { t with fileClosed := t.fileClosed + 1 } else t
  let t2 :=
    match req with
    | some fd => close_request fd t1
    | none => t1
  if res then close_response t2 else t2

/-- Modelled from the spec: create_response_from_request. The Response Encoder
source (response.c) is not among the sources; per the spec (section 4.3) build
allocates a Response bound to the request's connection handle and writes no
bytes. Setting the status code and the content-type and server headers
mutates only the pending response, with no peer I/O, so it is not tracked. -/
def create_response_from_request (t : WorkerTrace) : WorkerTrace :=
  { t with responseMade := true }

/-- Modelled from the spec: send_response_header. The Response Encoder source
(response.c) is not among the sources; per the spec (section 4.3)
send_header_block makes one transmission attempt writing the status line and
header block to the connection and reports success or failure. -/
def send_response_header (ok : Bool) (t : WorkerTrace) : Bool × WorkerTrace :=
  (ok, { t with sendAttempts := t.sendAttempts + 1 })

/-- Modelled from the spec: send_response_file. The Response Encoder source
(response.c) is not among the sources; per the spec (section 4.3)
send_body_stream attempts to transmit the resource bytes as the body and
reports success or failure. -/
def send_response_file (ok : Bool) (t : WorkerTrace) : Bool × WorkerTrace :=
  (ok, { t with sendAttempts := t.sendAttempts + 1 })

/-- Configuration values the worker reads (config.c is an out-of-scope
collaborator): the default page (PAGE_CONF_KEY) and the document root
directory (SITE_DIR_CONF_KEY). -/
structure ServerConfig where
  page : String
  site_dir : String

/-- Environment of one worker run: what recv delivers (none models a receive
error), which paths fopen can open, and whether the header-block and body
transmissions succeed. -/
structure WorkerInput where
  recvRet : Option (List Char)
  fopen_ok : String → Bool
  send_header_ok : Bool
  send_file_ok : Bool

/-- Outcome of one worker run: the trace of a run that reached a return
statement, or a crash (undefined behavior reached) with the trace accumulated
so far. -/
inductive WorkerResult where
  | crash (t : WorkerTrace)
  | done (t : WorkerTrace)
deriving DecidableEq

/-- Trace carried by a worker outcome. -/
def WorkerResult.trace : WorkerResult → WorkerTrace
  | WorkerResult.crash t => t
  | WorkerResult.done t => t

/-- handle_request (src/src/server.c lines 106-147): get_request, then with no
NULL check dereference req->url (crash when get_request returned NULL, and
crash when decoding already hit undefined behavior); substitute the configured
default page when the url is the root path; build the file path by direct
concatenation of the configured site directory and the url; fopen it, cleaning
up and returning when that fails; build the response, send the header block
(cleanup on failure), send the file (log and cleanup on failure), cleanup. -/
def handle_request (cfg : ServerConfig) (inp : WorkerInput) (conn_fd : Int) :
    WorkerResult :=
  match get_request inp.recvRet conn_fd with
  | GetReqResult.nullReq => WorkerResult.crash emptyTrace
  | GetReqResult.crash => WorkerResult.crash emptyTrace
  | GetReqResult.ok r =>
    let url := if r.url = "/" then cfg.page else r.url
    let file_path := cfg.site_dir ++ url
    let t0 : WorkerTrace :=
      { emptyTrace with requestMade := true, openPath := some file_path }
    if inp.fopen_ok file_path = false then
      WorkerResult.done (clean_request false (some r.conn_fd) false t0)
    else
      let t1 := { t0 with fileOpened := true }
      let t2 := create_response_from_request t1
      let s1 := send_response_header inp.send_header_ok t2
      if s1.1 = false then
        WorkerResult.done (clean_request true (some r.conn_fd) true s1.2)
      else
        let s2 := send_response_file inp.send_file_ok s1.2
        if s2.1 = false then
          WorkerResult.done (clean_request true (some r.conn_fd) true
            { s2.2 with sendFileErrorLogged := true })
        else
          WorkerResult.done (clean_request true (some r.conn_fd) true s2.2)

/-- One iteration's environment for the accept loop of main
(src/src/server.c lines 48-67): either accept failed, or accept returned the
descriptor fd and the subsequent pthread_create and pthread_detach calls
return createRet and detachRet (pthread functions return 0 on success and a
positive error number on failure). -/
inductive AcceptEvent where
  | acceptFail
  | accepted (fd : Nat) (createRet : Int) (detachRet : Int)
deriving DecidableEq

/-- Externally visible actions of one accept-loop iteration. -/
inductive DispatchAction where
  | logAcceptFail
  | logCreateFail
  | logDetachFail
  | spawnWorker (fd : Nat)
  | closeConn (fd : Nat)
deriving DecidableEq

/-- One iteration of the accept loop of main (src/src/server.c lines 48-67):
on accept failure, perror and continue. Otherwise pthread_create starts a
worker exactly when it returns 0; the code then tests pthread_create's return
value with < 0, and only in that case perrors, closes the accepted descriptor
and continues; otherwise it tests pthread_detach's return value with != 0 and
perrors when nonzero. Every branch ends in continue, never in break or
return. -/
def dispatch_step : AcceptEvent → List DispatchAction
  | AcceptEvent.acceptFail => [DispatchAction.logAcceptFail]
  | AcceptEvent.accepted fd createRet detachRet =>
    (if createRet = 0 then [DispatchAction.spawnWorker fd] else []) ++
    (if createRet < 0 then [DispatchAction.logCreateFail, DispatchAction.closeConn fd]
     else if detachRet ≠ 0 then [DispatchAction.logDetachFail] else [])

/-- The accept loop over a stream of iteration environments: since every
branch of the loop body ends in continue, the loop processes every event. -/
def dispatch (events : List AcceptEvent) : List DispatchAction :=
  events.flatMap dispatch_step

theorem takeWhile_replicate_of_pos {α : Type} {p : α → Bool} {c : α}
    (hp : p c = true) : ∀ n, (List.replicate n c).takeWhile p = List.replicate n c := by
  intro n
  induction n with
  | zero => rfl
  | succ m ih =>
    rw [List.replicate_succ, List.takeWhile_cons, if_pos hp, ih, ← List.replicate_succ]

theorem dropWhile_replicate_of_pos {α : Type} {p : α → Bool} {c : α}
    (hp : p c = true) : ∀ n, (List.replicate n c).dropWhile p = [] := by
  intro n
  induction n with
  | zero => rfl
  | succ m ih =>
    rw [List.replicate_succ, List.dropWhile_cons, if_pos hp, ih]

theorem dropWhile_replicate_of_neg {α : Type} {p : α → Bool} {c : α}
    (hp : p c = false) : ∀ n, (List.replicate n c).dropWhile p = List.replicate n c := by
  intro n
  cases n with
  | zero => rfl
  | succ m =>
    rw [List.replicate_succ, List.dropWhile_cons, if_neg (by simp [hp]),
      ← List.replicate_succ]

theorem strtok_replicate {c : Char} {d : List Char} (m : Nat)
    (hc : d.contains c = false) :
    strtok (List.replicate (m + 1) c) d = (some (List.replicate (m + 1) c), []) := by
  have hcm : c ∉ d := by simpa using hc
  have h1 : (List.replicate (m + 1) c).dropWhile (fun x => d.contains x) =
      List.replicate (m + 1) c :=
    dropWhile_replicate_of_neg hc _
  have h2 : (List.replicate (m + 1) c).takeWhile (fun x => !(d.contains x)) =
      List.replicate (m + 1) c :=
    takeWhile_replicate_of_pos (by simp [hcm]) _
  have h3 : (List.replicate (m + 1) c).dropWhile (fun x => !(d.contains x)) = [] :=
    dropWhile_replicate_of_pos (by simp [hcm]) _
  have h4 : (List.replicate (m + 1) c).isEmpty = false := by
    rw [List.replicate_succ]
    rfl
  simp only [strtok]
  rw [h1, h2, h3, h4]
  rfl

theorem parse_request_buf_replicate_crash (m : Nat) :
    parse_request_buf (List.replicate (m + 1) 'A') = ParseOutcome.crash := by
  unfold parse_request_buf
  rw [strtok_replicate m (by decide)]
  rfl

theorem get_request_ok_fd {rv : Option (List Char)} {fd : Int} {r : RequestData}
    (h : get_request rv fd = GetReqResult.ok r) : r.conn_fd = fd := by
  cases rv with
  | none => simp [get_request] at h
  | some stream =>
    unfold get_request parse_request at h
    dsimp only at h
    cases hp : parse_request_buf (stream.take REQ_BUF_SIZE) with
    | crash =>
      rw [hp] at h
      simp at h
    | ok m u v hs =>
      rw [hp] at h
      dsimp only at h
      cases h
      rfl

theorem parse_headers_stop_none {rest : List Char} {htab : List (String × String)}
    {x : List Char} (h : strtok rest [':'] = (none, x)) :
    parse_headers rest htab = htab := by
  unfold parse_headers
  cases hl : rest.length with
  | zero => rfl
  | succ n =>
    unfold parse_headers_fuel
    rw [h]

theorem parse_headers_stop_noval {rest : List Char} {htab : List (String × String)}
    {k r1 x : List Char} (h1 : strtok rest [':'] = (some k, r1))
    (h2 : strtok r1 ['\r'] = (none, x)) :
    parse_headers rest htab = htab := by
  have a1 := strtok_some_length h1
  unfold parse_headers
  cases hl : rest.length with
  | zero => omega
  | succ n =>
    unfold parse_headers_fuel
    rw [h1]
    dsimp only
    rw [h2]

theorem parse_headers_fuel_step (f : Nat) (rest : List Char)
    (htab : List (String × String)) :
    parse_headers_fuel (f + 1) rest htab =
      match strtok rest [':'] with
      | (none, _) => htab
      | (some keyTok, r1) =>
        match strtok r1 ['\r'] with
        | (none, _) => htab
        | (some valTok, r2) =>
          parse_headers_fuel f r2
            (htab_insert htab (keyTok.drop 1).asString (valTok.drop 1).asString) :=
  rfl

theorem parse_headers_step {rest : List Char} {htab : List (String × String)}
    {k r1 v r2 : List Char} (h1 : strtok rest [':'] = (some k, r1))
    (h2 : strtok r1 ['\r'] = (some v, r2)) :
    parse_headers rest htab =
      parse_headers r2 (htab_insert htab (k.drop 1).asString (v.drop 1).asString) := by
  have a1 := strtok_some_length h1
  have a2 := strtok_some_length h2
  unfold parse_headers
  cases hl : rest.length with
  | zero => omega
  | succ n =>
    rw [parse_headers_fuel_step, h1]
    dsimp only
    rw [h2]
    dsimp only
    exact parse_headers_fuel_irrel n r2 _ r2.length (by omega) (le_refl _)

/-- C1: the claim that a request line with fewer than three space-delimited
tokens makes decoding fail with no Request produced does not hold of the code.
On the buffer "GET /x\r\n" the third strtok token is missing, so _parse_request
passes strtok's NULL result to strdup: undefined behavior (modelled as the
crash outcome), not a NULL return to the caller. And on the buffer
"GET /x\r\nHost: a\r\n", whose request line also has only two space-delimited
tokens, strtok takes tokens from the following line and parse_request returns
a fully populated Request. -/
theorem C1_short_request_line_not_clean_failure :
    parse_request "GET /x\r\n".toList 5 = ParseReqResult.crash ∧
    parse_request "GET /x\r\nHost: a\r\n".toList 5 =
      ParseReqResult.ok ⟨5, "GET", "/x\r\nHost:", "a", []⟩ :=
  ⟨rfl, rfl⟩

/-- C2: the claim that on receive or decode failure the worker goes to cleanup
and closes the connection does not hold of the code. handle_request never
checks get_request's result for NULL: when recv fails (get_request returns
NULL) the worker dereferences req->url — undefined behavior and cleanup never
runs — and when decoding hits its own undefined behavior (buffer "GET /x\r\n")
no cleanup runs either. In both runs the crash outcome is reached with nothing
released and nothing sent. -/
theorem C2_recv_or_decode_failure_crashes :
    handle_request ⟨"index.html", "web/"⟩
      ⟨none, fun _ => true, true, true⟩ 4 = WorkerResult.crash emptyTrace ∧
    handle_request ⟨"index.html", "web/"⟩
      ⟨some "GET /x\r\n".toList, fun _ => true, true, true⟩ 4 =
      WorkerResult.crash emptyTrace :=
  ⟨rfl, rfl⟩

/-- C3: decoding the well-formed request buffer "GET /x HTTP/1.1\r\nHost: a\r\n"
succeeds and yields a Request with method "GET", target "/x", version
"HTTP/1.1" and a header store in which looking up "Host" returns "a". -/
theorem C3_wellformed_request_decodes :
    parse_request "GET /x HTTP/1.1\r\nHost: a\r\n".toList 3 =
      ParseReqResult.ok ⟨3, "GET", "/x", "HTTP/1.1", [("Host", "a")]⟩ ∧
    htab_lookup [("Host", "a")] "Host" = some "a" :=
  ⟨rfl, rfl⟩

/-- C4 counterexample: in the buffer
"GET / HTTP/1.1\r\nBad\r\nHost: a\r\nX: b\r\n" the header line "Bad" is
malformed (it has no colon), yet decoding produces a store that contains the
later well-formed header "X: b" — looking up "X" succeeds — so parsing did not
stop at the malformed line and a header after it is not absent, contrary to
the claim. (The malformed text is absorbed into the following header's name:
the store's other key is "Bad\r\nHost".) -/
theorem C4_counterexample_header_after_malformed_line_present :
    parse_request_buf "GET / HTTP/1.1\r\nBad\r\nHost: a\r\nX: b\r\n".toList =
      ParseOutcome.ok "GET" "/" "HTTP/1.1" [("X", "b"), ("Bad\r\nHost", "a")] ∧
    htab_lookup [("X", "b"), ("Bad\r\nHost", "a")] "X" = some "b" :=
  ⟨rfl, rfl⟩

/-- C4 amended: header parsing stops, without signaling an error, exactly when
the next colon-delimited token or the following line-terminator-delimited
token is not found in the entire remaining buffer; when both tokens are found
— even when the colon-delimited token spans a malformed line and the next
line's header name — the loop inserts the entry and continues, so headers
after a malformed line are not necessarily absent from the store. -/
theorem C4_amended_stop_rule :
    (∀ rest htab x, strtok rest [':'] = (none, x) →
      parse_headers rest htab = htab) ∧
    (∀ rest htab k r1 x, strtok rest [':'] = (some k, r1) →
      strtok r1 ['\r'] = (none, x) → parse_headers rest htab = htab) ∧
    (∀ rest htab k r1 v r2, strtok rest [':'] = (some k, r1) →
      strtok r1 ['\r'] = (some v, r2) →
      parse_headers rest htab =
        parse_headers r2 (htab_insert htab (k.drop 1).asString (v.drop 1).asString)) :=
  ⟨fun _ _ _ h => parse_headers_stop_none h,
   fun _ _ _ _ _ h1 h2 => parse_headers_stop_noval h1 h2,
   fun _ _ _ _ _ _ h1 h2 => parse_headers_step h1 h2⟩

/-- C4 witness: the amended stop rule applied to concrete buffers. An empty
remainder stops with the store unchanged; the remainder "\nBad" (a malformed
last line with no colon and no carriage return ahead) stops with the store
unchanged; the remainder "\nHost: a\r\n" takes one step inserting the header
derived from the tokens "\nHost" and " a". -/
theorem C4_amended_stop_rule_witness :
    parse_headers [] [] = [] ∧
    parse_headers "\nBad".toList [] = [] ∧
    parse_headers "\nHost: a\r\n".toList [] =
      parse_headers "\n".toList
        (htab_insert [] ("\nHost".toList.drop 1).asString (" a".toList.drop 1).asString) :=
  ⟨C4_amended_stop_rule.1 [] [] [] rfl,
   C4_amended_stop_rule.2.1 "\nBad".toList [] "\nBad".toList [] [] rfl rfl,
   C4_amended_stop_rule.2.2 "\nHost: a\r\n".toList [] "\nHost".toList
     " a\r\n".toList " a".toList "\n".toList rfl rfl⟩

/-- C5: the claim that decoding a truncated over-capacity request does not
crash does not hold of the code. A request of 8193 bytes of the letter A is
truncated by recv to the REQ_BUF_SIZE = 8192 bytes actually received, and on
that truncated buffer the second strtok finds no token, so _parse_request
passes NULL to strdup: undefined behavior, neither a clean decode failure nor
a Request. (The truncation half of the claim is accurate: the model decodes
exactly the first REQ_BUF_SIZE bytes of the stream.) -/
theorem C5_truncated_input_can_crash :
    get_request (some (List.replicate 8193 'A')) 3 = GetReqResult.crash := by
  have htake : (List.replicate 8193 'A').take REQ_BUF_SIZE =
      List.replicate 8192 'A' := by
    unfold REQ_BUF_SIZE
    rw [List.take_replicate]
    norm_num
  have hcrash : parse_request_buf (List.replicate 8192 'A') = ParseOutcome.crash :=
    parse_request_buf_replicate_crash 8191
  unfold get_request parse_request
  dsimp only
  rw [htake, hcrash]

/-- C8: header lookup is a case-sensitive exact match: on the store populated
from the request "GET /x HTTP/1.1\r\nHost: a\r\n" (which contains the header
"Host: a"), looking up "host" reports not-found while looking up "Host"
succeeds with "a". -/
theorem C8_header_lookup_case_sensitive :
    parse_request_buf "GET /x HTTP/1.1\r\nHost: a\r\n".toList =
      ParseOutcome.ok "GET" "/x" "HTTP/1.1" [("Host", "a")] ∧
    htab_lookup [("Host", "a")] "host" = none ∧
    htab_lookup [("Host", "a")] "Host" = some "a" :=
  ⟨rfl, rfl, rfl⟩

/-- C9: the claim's worker-start-failure handling does not hold of the code.
pthread_create reports failure by returning a positive error number, but main
tests its return value with < 0, a test that can never be true; so for an
accepted connection (descriptor 7) whose worker creation fails with EAGAIN
(11) and whose subsequent stale pthread_detach happens to return 0, the
iteration performs no action at all: no worker, no close of descriptor 7, no
log. The loop itself does keep accepting: an accept failure logs and the
following events are still processed. -/
theorem C9_worker_start_failure_unhandled :
    dispatch_step (AcceptEvent.accepted 7 11 0) = [] ∧
    dispatch [AcceptEvent.acceptFail, AcceptEvent.accepted 7 11 0,
        AcceptEvent.accepted 8 0 0] =
      [DispatchAction.logAcceptFail, DispatchAction.spawnWorker 8] :=
  ⟨rfl, rfl⟩

/-- C10: get_request_header returns NULL, leaving the caller's buffer
untouched, when the request pointer or the header-name pointer is NULL; and
when the name is found and a non-null output buffer was supplied, the stored
value is copied into the buffer and a pointer to the stored value is
returned. -/
theorem C10_get_request_header_null_and_copy :
    (∀ k buf, get_request_header none k buf = (none, buf)) ∧
    (∀ r buf, get_request_header r none buf = (none, buf)) ∧
    (∀ r k v b, htab_lookup r.header_htab k = some v →
      get_request_header (some r) (some k) (some b) = (some v, some v)) := by
  refine ⟨?_, ?_, ?_⟩
  · intro k buf
    cases k <;> rfl
  · intro r buf
    cases r <;> rfl
  · intro r k v b h
    unfold get_request_header
    dsimp only
    rw [h]

/-- C10 witness: the three parts applied at concrete arguments: a NULL
request, a NULL header name, and a successful lookup of "Host" in a concrete
request with the buffer "zz" supplied. -/
theorem C10_get_request_header_witness :
    get_request_header none (some "Host") (some "x") = (none, some "x") ∧
    get_request_header (some ⟨3, "GET", "/x", "HTTP/1.1", [("Host", "a")]⟩)
      none (some "x") = (none, some "x") ∧
    get_request_header (some ⟨3, "GET", "/x", "HTTP/1.1", [("Host", "a")]⟩)
      (some "Host") (some "zz") = (some "a", some "a") :=
  ⟨C10_get_request_header_null_and_copy.1 (some "Host") (some "x"),
   C10_get_request_header_null_and_copy.2.1
     (some ⟨3, "GET", "/x", "HTTP/1.1", [("Host", "a")]⟩) (some "x"),
   C10_get_request_header_null_and_copy.2.2
     ⟨3, "GET", "/x", "HTTP/1.1", [("Host", "a")]⟩ "Host" "a" "zz" rfl⟩

/-- C6: on every worker execution path — success, unopenable file, failed
header-block send, failed body send, and the crash paths, on which nothing was
constructed — each of the three cleanup components is released exactly as many
times as it was constructed: the open file handle once iff opened, the Request
once iff decoding produced one (its release also closing the connection
descriptor it owns exactly once, the descriptor being valid), and the Response
once iff built; and cleanup with all components null releases nothing. -/
theorem C6_cleanup_releases_exactly_once :
    (∀ cfg inp conn_fd, conn_fd ≠ -1 →
      ((handle_request cfg inp conn_fd).trace.fileClosed =
        (if (handle_request cfg inp conn_fd).trace.fileOpened then 1 else 0)) ∧
      ((handle_request cfg inp conn_fd).trace.requestClosed =
        (if (handle_request cfg inp conn_fd).trace.requestMade then 1 else 0)) ∧
      ((handle_request cfg inp conn_fd).trace.connClosed =
        (if (handle_request cfg inp conn_fd).trace.requestMade then 1 else 0)) ∧
      ((handle_request cfg inp conn_fd).trace.responseClosed =
        (if (handle_request cfg inp conn_fd).trace.responseMade then 1 else 0))) ∧
    (∀ t, clean_request false none false t = t) := by
  refine ⟨?_, ?_⟩
  · intro cfg inp conn_fd hfd
    unfold handle_request
    cases hg : get_request inp.recvRet conn_fd with
    | nullReq => exact ⟨rfl, rfl, rfl, rfl⟩
    | crash => exact ⟨rfl, rfl, rfl, rfl⟩
    | ok r =>
      have hrc : r.conn_fd = conn_fd := get_request_ok_fd hg
      dsimp only
      cases hb : inp.fopen_ok (cfg.site_dir ++ (if r.url = "/" then cfg.page else r.url)) with
      | false =>
        simp [clean_request, close_request, close_response, emptyTrace,
          WorkerResult.trace, hrc, hfd]
      | true =>
        cases hh : inp.send_header_ok with
        | false =>
          simp [clean_request, close_request, close_response, emptyTrace,
            create_response_from_request, send_response_header, send_response_file,
            WorkerResult.trace, hrc, hfd]
        | true =>
          cases hsf : inp.send_file_ok with
          | false =>
            simp [clean_request, close_request, close_response, emptyTrace,
              create_response_from_request, send_response_header, send_response_file,
              WorkerResult.trace, hrc, hfd]
          | true =>
            simp [clean_request, close_request, close_response, emptyTrace,
              create_response_from_request, send_response_header, send_response_file,
              WorkerResult.trace, hrc, hfd]
  · intro t
    rfl

/-- C6 witness: a successful run over the request "GET /x HTTP/1.1\r\nHost: a\r\n"
on descriptor 4 with every external step succeeding satisfies the
released-iff-constructed accounting, and null cleanup leaves the empty trace
unchanged. -/
theorem C6_cleanup_releases_exactly_once_witness :
    (((handle_request ⟨"index.html", "web/"⟩
        ⟨some "GET /x HTTP/1.1\r\nHost: a\r\n".toList, fun _ => true, true, true⟩
        4).trace.fileClosed =
      (if (handle_request ⟨"index.html", "web/"⟩
        ⟨some "GET /x HTTP/1.1\r\nHost: a\r\n".toList, fun _ => true, true, true⟩
        4).trace.fileOpened then 1 else 0)) ∧
     ((handle_request ⟨"index.html", "web/"⟩
        ⟨some "GET /x HTTP/1.1\r\nHost: a\r\n".toList, fun _ => true, true, true⟩
        4).trace.requestClosed =
      (if (handle_request ⟨"index.html", "web/"⟩
        ⟨some "GET /x HTTP/1.1\r\nHost: a\r\n".toList, fun _ => true, true, true⟩
        4).trace.requestMade then 1 else 0)) ∧
     ((handle_request ⟨"index.html", "web/"⟩
        ⟨some "GET /x HTTP/1.1\r\nHost: a\r\n".toList, fun _ => true, true, true⟩
        4).trace.connClosed =
      (if (handle_request ⟨"index.html", "web/"⟩
        ⟨some "GET /x HTTP/1.1\r\nHost: a\r\n".toList, fun _ => true, true, true⟩
        4).trace.requestMade then 1 else 0)) ∧
     ((handle_request ⟨"index.html", "web/"⟩
        ⟨some "GET /x HTTP/1.1\r\nHost: a\r\n".toList, fun _ => true, true, true⟩
        4).trace.responseClosed =
      (if (handle_request ⟨"index.html", "web/"⟩
        ⟨some "GET /x HTTP/1.1\r\nHost: a\r\n".toList, fun _ => true, true, true⟩
        4).trace.responseMade then 1 else 0))) ∧
    clean_request false none false emptyTrace = emptyTrace :=
  ⟨C6_cleanup_releases_exactly_once.1 ⟨"index.html", "web/"⟩
     ⟨some "GET /x HTTP/1.1\r\nHost: a\r\n".toList, fun _ => true, true, true⟩
     4 (by decide),
   C6_cleanup_releases_exactly_once.2 emptyTrace⟩

/-- C7: when the decoded request's target equals the root path "/", the worker
substitutes the configured default page before resolving: the path handed to
fopen is the configured site directory concatenated with the configured
default page; and whenever the resolved file cannot be opened, the worker
attempts no transmission (zero bytes written, no status line) and the
connection is closed exactly once. -/
theorem C7_root_substitution_and_unopenable_target :
    (∀ cfg inp conn_fd r, get_request inp.recvRet conn_fd = GetReqResult.ok r →
      r.url = "/" →
      (handle_request cfg inp conn_fd).trace.openPath =
        some (cfg.site_dir ++ cfg.page)) ∧
    (∀ cfg inp conn_fd r, get_request inp.recvRet conn_fd = GetReqResult.ok r →
      conn_fd ≠ -1 →
      inp.fopen_ok (cfg.site_dir ++ (if r.url = "/" then cfg.page else r.url)) = false →
      (handle_request cfg inp conn_fd).trace.sendAttempts = 0 ∧
      (handle_request cfg inp conn_fd).trace.connClosed = 1) := by
  refine ⟨?_, ?_⟩
  · intro cfg inp conn_fd r hg hurl
    unfold handle_request
    rw [hg]
    dsimp only
    rw [hurl]
    cases hb : inp.fopen_ok (cfg.site_dir ++ (if "/" = "/" then cfg.page else "/")) with
    | false =>
      simp [clean_request, close_request, close_response, emptyTrace,
        WorkerResult.trace]
      split <;> rfl
    | true =>
      cases hh : inp.send_header_ok with
      | false =>
        simp [clean_request, close_request, close_response, emptyTrace,
          create_response_from_request, send_response_header, send_response_file,
          WorkerResult.trace]
        split <;> rfl
      | true =>
        cases hsf : inp.send_file_ok with
        | false =>
          simp [clean_request, close_request, close_response, emptyTrace,
            create_response_from_request, send_response_header, send_response_file,
            WorkerResult.trace]
          split <;> rfl
        | true =>
          simp [clean_request, close_request, close_response, emptyTrace,
            create_response_from_request, send_response_header, send_response_file,
            WorkerResult.trace]
          split <;> rfl
  · intro cfg inp conn_fd r hg hfd hb
    have hrc : r.conn_fd = conn_fd := get_request_ok_fd hg
    unfold handle_request
    rw [hg]
    dsimp only
    rw [hb]
    simp [clean_request, close_request, close_response, emptyTrace,
      WorkerResult.trace, hrc, hfd]

/-- C7 witness: the request "GET / HTTP/1.1\r\nHost: a\r\n" on descriptor 4
with site directory "web/" and default page "index.html", where no path can be
opened: the path handed to fopen is "web/" ++ "index.html", no transmission is
attempted, and the connection is closed exactly once. -/
theorem C7_root_substitution_witness :
    (handle_request ⟨"index.html", "web/"⟩
      ⟨some "GET / HTTP/1.1\r\nHost: a\r\n".toList, fun _ => false, true, true⟩
      4).trace.openPath = some ("web/" ++ "index.html") ∧
    (handle_request ⟨"index.html", "web/"⟩
      ⟨some "GET / HTTP/1.1\r\nHost: a\r\n".toList, fun _ => false, true, true⟩
      4).trace.sendAttempts = 0 ∧
    (handle_request ⟨"index.html", "web/"⟩
      ⟨some "GET / HTTP/1.1\r\nHost: a\r\n".toList, fun _ => false, true, true⟩
      4).trace.connClosed = 1 :=
  ⟨C7_root_substitution_and_unopenable_target.1 ⟨"index.html", "web/"⟩
     ⟨some "GET / HTTP/1.1\r\nHost: a\r\n".toList, fun _ => false, true, true⟩
     4 ⟨4, "GET", "/", "HTTP/1.1", [("Host", "a")]⟩ rfl rfl,
   (C7_root_substitution_and_unopenable_target.2 ⟨"index.html", "web/"⟩
     ⟨some "GET / HTTP/1.1\r\nHost: a\r\n".toList, fun _ => false, true, true⟩
     4 ⟨4, "GET", "/", "HTTP/1.1", [("Host", "a")]⟩ rfl (by decide) rfl).1,
   (C7_root_substitution_and_unopenable_target.2 ⟨"index.html", "web/"⟩
     ⟨some "GET / HTTP/1.1\r\nHost: a\r\n".toList, fun _ => false, true, true⟩
     4 ⟨4, "GET", "/", "HTTP/1.1", [("Host", "a")]⟩ rfl (by decide) rfl).2⟩

end ElServe
